import Mathlib

/-!
Verification of the kani-output repository: the `kani-driver` binary
(src/kani-driver/src/main.rs) and the `kani-mcp-server` wrapper
(src/kani-mcp-server/src/kani_wrapper.rs), shallowly embedded in Lean.
Rust machine integers that never overflow in the modelled code are Nat;
Rust f64 values are modelled as exact rationals; OsString and PathBuf are
modelled as String; fallible Rust code returns Except.
-/

namespace KaniDriver

/-- A shallow model of the serde_json value type used by the driver when
it assembles the exported report.  Rust numbers (u32, f64) are modelled
as exact rationals. -/
inductive Json where
  | null : Json
  | bool : Bool → Json
  | num : Rat → Json
  | str : String → Json
  | arr : List Json → Json
  | obj : List (String × Json) → Json

/-- Lookup of a top-level key in an ordered association list, first
occurrence wins (the serde_json object/map lookup). -/
def lookupKey : List (String × Json) → String → Option Json
  | [], _ => none
  | (k0, v) :: rest, k => if k0 = k then some v else lookupKey rest k

/-- Set or overwrite the value stored under a key, keeping the position
of an existing key and appending a missing key at the end. -/
def setKey : List (String × Json) → String → Json → List (String × Json)
  | [], k, v => [(k, v)]
  | (k0, v0) :: rest, k, v =>
    if k0 = k then (k, v) :: rest else (k0, v0) :: setKey rest k v

/-- How many entries of the association list carry the given key. -/
def countKey : List (String × Json) → String → Nat
  | [], _ => 0
  | (k0, _) :: rest, k => (if k0 = k then 1 else 0) + countKey rest k

/-- The array stored in an optional Json value; anything that is not an
array reads as the empty array. -/
def arrOf : Option Json → List Json
  | some (Json.arr xs) => xs
  | _ => []

/-- Field access on a Json object. -/
def Json.getField : Json → String → Option Json
  | Json.obj fields, k => lookupKey fields k
  | _, _ => none

/-- Render a Rust `Option<String>` the way `serde_json::json!` does:
`None` becomes null, `Some s` becomes a string. -/
def optStr : Option String → Json
  | none => Json.null
  | some s => Json.str s

/-- Render a Rust `Option<u32>` the way `serde_json::json!` does. -/
def optNum : Option Nat → Json
  | none => Json.null
  | some n => Json.num n

/-- Render a Rust `Option<f64>` statistic field. -/
def optRat : Option Rat → Json
  | none => Json.null
  | some q => Json.num q

/-- Modelled from the spec: the json_handler module is not under src/.
Section 4.5 describes the Report Builder as an append-only,
key-partitioned document: an ordered mapping from section key to records,
serialized once at the end. -/
structure JsonHandler where
  sections : List (String × Json)

/-- Modelled from the spec: `add_item(key, value)` sets or overwrites a
scalar under a top-level key of the report. -/
def JsonHandler.add_item (hd : JsonHandler) (k : String) (v : Json) : JsonHandler :=
  ⟨setKey hd.sections k v⟩

/-- Modelled from the spec: `add_harness_detail(section, record)` appends
one record to the ordered array under `section`; duplicate identities are
allowed and not deduplicated. -/
def JsonHandler.add_harness_detail (hd : JsonHandler) (sect : String) (record : Json) :
    JsonHandler :=
  ⟨setKey hd.sections sect (Json.arr (arrOf (lookupKey hd.sections sect) ++ [record]))⟩

/-- Harness attributes, as read by main.rs (`h.attributes.*`).  The enum
valued fields (kind, solver, stubs) are only ever rendered through
`format!("{:?}", _)` in the modelled code, so they are carried here
already in their rendered string form. -/
structure HarnessAttributes where
  kind : String
  should_panic : Bool
  solver : Option String
  unwind_value : Option Nat
  stubs : List String
  verified_stubs : Bool
deriving DecidableEq, Repr

/-- Harness metadata, as read by main.rs; constructed by an external
collaborator and read-only to the modelled code. -/
structure HarnessMetadata where
  pretty_name : String
  mangled_name : String
  crate_name : String
  original_file : String
  original_start_line : Nat
  original_end_line : Nat
  goto_file : Option String
  attributes : HarnessAttributes
  has_loop_contracts : Bool
  is_automatically_generated : Bool
  contract : Option String
deriving DecidableEq, Repr

/-- The two-valued verification status of `crate::call_cbmc`. -/
inductive VerificationStatus where
  | Success : VerificationStatus
  | Failure : VerificationStatus
deriving DecidableEq, Repr

/-- Modelled from the spec: the call_cbmc module is not under src/.  The
SolverStatistics block has independently optional numeric fields; the
field names are the ones echoed by main.rs into the cbmc_stats record. -/
structure CbmcStats where
  runtime_symex_s : Option Rat
  size_program_expression : Option Rat
  slicing_removed_assignments : Option Rat
  vccs_generated : Option Rat
  vccs_remaining : Option Rat
  runtime_postprocess_equation_s : Option Rat
  runtime_convert_ssa_s : Option Rat
  runtime_post_process_s : Option Rat
  runtime_solver_s : Option Rat
  runtime_decision_procedure_s : Option Rat
deriving DecidableEq, Repr

/-- Modelled from the spec: the call_cbmc module is not under src/.  A
VerificationOutcome carries status, wall-clock runtime and optional
statistics; the runtime is a Rust `Duration`, held here in nanoseconds. -/
structure CbmcVerificationResult where
  status : VerificationStatus
  runtime_nanos : Nat
  cbmc_stats : Option CbmcStats
deriving DecidableEq, Repr

/-- Modelled from the spec: the harness_runner module is not under src/.
One per-harness entry of the result vector returned by
`check_all_harnesses`: the harness together with its outcome. -/
structure HarnessResult where
  harness : HarnessMetadata
  result : CbmcVerificationResult
deriving DecidableEq, Repr

/-- Modelled from the spec: the session module is not under src/.  The
checker environment info: engine version string and host OS description,
resolved at most once per run by `get_cbmc_info`. -/
structure CbmcInfo where
  version : String
  os_info : String
deriving DecidableEq, Repr

/-- Modelled from the spec: the harness_runner module is not under src/.
Section 4.3: harnesses run sequentially; `invoke h = none` models a spawn
failure (a crash exit is an `invoke` result that already carries Failure
status); a spawn failure is recorded as a Failure outcome with the
incomplete information that exists and never aborts the remaining
harnesses; `sink` models the optional report sink, whose push failure is
run-fatal. -/
def check_all_harnesses (invoke : HarnessMetadata → Option CbmcVerificationResult)
    (sink : HarnessResult → Bool) :
    List HarnessMetadata → Except String (List HarnessResult)
  | [] => Except.ok []
  | h :: rest =>
    let outcome := match invoke h with
      | some r => r
      | none => { status := VerificationStatus.Failure, runtime_nanos := 0, cbmc_stats := none }
    let hr : HarnessResult := { harness := h, result := outcome }
    if sink hr then
      match check_all_harnesses invoke sink rest with
      | Except.ok tail => Except.ok (hr :: tail)
      | Except.error e => Except.error e
    else Except.error "failed to push into report sink"

/-- The character standing for the digit n, for n below ten. -/
def digitChar (n : Nat) : Char := Char.ofNat (48 + n)

/-- The three decimal digits of a number below 1000, zero padded. -/
def pad3 (m : Nat) : String :=
  String.mk [digitChar (m / 100 % 10), digitChar (m / 10 % 10), digitChar (m % 10)]

/-- Division rounding to the nearest integer, ties to even: the rounding
Rust applies when formatting a float with a fixed precision. -/
def roundHalfEvenDiv (n d : Nat) : Nat :=
  let q := n / d
  let r := n % d
  if 2 * r < d then q
  else if d < 2 * r then q + 1
  else if q % 2 = 0 then q else q + 1

/-- The timing string written by main.rs line 210:
`format!("{:.3}s", result.result.runtime.as_secs_f64())` — the runtime
in seconds with exactly three decimal digits and a trailing `s`.  The
f64 value is modelled as the exact rational nanos / 10^9. -/
def format_cbmc_runtime (nanos : Nat) : String :=
  let ms := roundHalfEvenDiv nanos 1000000
  toString (ms / 1000) ++ "." ++ pad3 (ms % 1000) ++ "s"

/-- The record appended to the "harnesses" section for one harness
(main.rs lines 149-175). -/
def harnessMetadataJson (h : HarnessMetadata) : Json :=
  Json.obj [
    ("pretty_name", Json.str h.pretty_name),
    ("mangled_name", Json.str h.mangled_name),
    ("crate_name", Json.str h.crate_name),
    ("original", Json.obj [
      ("file", Json.str h.original_file),
      ("start_line", Json.num h.original_start_line),
      ("end_line", Json.num h.original_end_line)]),
    ("goto", optStr h.goto_file),
    ("kind", Json.str h.attributes.kind),
    ("should_panic", Json.bool h.attributes.should_panic),
    ("has_loop_contracts", Json.bool h.has_loop_contracts),
    ("is_automatically_generated", Json.bool h.is_automatically_generated),
    ("solver", optStr h.attributes.solver),
    ("unwind_value", optNum h.attributes.unwind_value),
    ("contract", optStr h.contract),
    ("stubs", Json.arr (h.attributes.stubs.map Json.str)),
    ("verified_stubs", Json.bool h.attributes.verified_stubs)]

/-- The record appended to the "cbmc" section for one harness (main.rs
lines 178-227).  `harness_result` is the first result whose harness has
the same pretty_name, exactly as
`results.iter().find(|r| r.harness.pretty_name == h.pretty_name)`. -/
def cbmcRecordJson (cbmc_info_opt : Option CbmcInfo) (object_bits : Option Nat)
    (results : List HarnessResult) (h : HarnessMetadata) : Json :=
  let harness_result := results.find? (fun r => r.harness.pretty_name == h.pretty_name)
  Json.obj [
    ("harness_id", Json.str h.pretty_name),
    ("cbmc_metadata", Json.obj [
      ("version", optStr (cbmc_info_opt.map (fun i => i.version))),
      ("os_info", optStr (cbmc_info_opt.map (fun i => i.os_info))),
      ("object_bits", optNum object_bits),
      ("solver", Json.str (h.attributes.solver.getD "Cadical")),
      ("verbosity", Json.num 9)]),
    ("Configuration", Json.obj [
      ("object_bits", optNum object_bits),
      ("solver", Json.str (h.attributes.solver.getD "Cadical")),
      ("verbosity", Json.num 9)]),
    ("summary", match harness_result with
      | none => Json.null
      | some r => Json.obj [
          ("total", Json.num 1),
          ("status", Json.str (match r.result.status with
            | VerificationStatus.Success => "completed"
            | VerificationStatus.Failure => "failed"))]),
    ("timing", match harness_result with
      | none => Json.null
      | some r => Json.obj [
          ("cbmc_runtime", Json.str (format_cbmc_runtime r.result.runtime_nanos))]),
    ("cbmc_stats", match harness_result.bind (fun r => r.result.cbmc_stats) with
      | none => Json.null
      | some s => Json.obj [
          ("runtime_symex_s", optRat s.runtime_symex_s),
          ("size_program_expression", optRat s.size_program_expression),
          ("slicing_removed_assignments", optRat s.slicing_removed_assignments),
          ("vccs_generated", optRat s.vccs_generated),
          ("vccs_remaining", optRat s.vccs_remaining),
          ("runtime_postprocess_equation_s", optRat s.runtime_postprocess_equation_s),
          ("runtime_convert_ssa_s", optRat s.runtime_convert_ssa_s),
          ("runtime_post_process_s", optRat s.runtime_post_process_s),
          ("runtime_solver_s", optRat s.runtime_solver_s),
          ("runtime_decision_procedure_s", optRat s.runtime_decision_procedure_s)])]

/-- The report document built by `verify_project` (main.rs lines
133-251): the "harnesses" loop, then the "cbmc" loop, then the
"coverage" item; `cbmc_info_opt` is the value of
`session.get_cbmc_info().ok()` computed once on line 145, before both
loops; `coverage` is `session.args.coverage` and `object_bits` is
`session.args.cbmc_object_bits()`. -/
def verify_project_report (harnesses : List HarnessMetadata) (results : List HarnessResult)
    (cbmc_info_opt : Option CbmcInfo) (coverage : Bool) (object_bits : Option Nat) :
    JsonHandler :=
  let handler : JsonHandler := ⟨[]⟩
  let handler := harnesses.foldl
    (fun d h => d.add_harness_detail "harnesses" (harnessMetadataJson h)) handler
  let handler := harnesses.foldl
    (fun d h => d.add_harness_detail "cbmc" (cbmcRecordJson cbmc_info_opt object_bits results h))
    handler
  if coverage then handler.add_item "coverage" (Json.obj [("enabled", Json.bool true)])
  else handler.add_item "coverage" (Json.obj [("enabled", Json.bool false)])

/-- The operating mode decided by `determine_invocation_type`. -/
inductive InvocationType where
  | CargoKani : List String → InvocationType
  | Standalone : InvocationType
deriving DecidableEq, Repr

/-- Modelled from the spec: the util module is not under src/.
`util::executable_basename` takes the final path component (the part
after the last slash) of the first argument, when there is one. -/
def executable_basename (arg : Option String) : Option String :=
  arg.map (fun s => String.mk (s.data.foldl (fun acc c => if c = '/' then [] else acc ++ [c]) []))

/-- `determine_invocation_type` (main.rs lines 262-286): peeks at the
command line arguments to decide between the cargo-kani and the
standalone mode, in the priority order of the four source cases. -/
def determine_invocation_type (args : List String) : InvocationType :=
  let exe := executable_basename args.head?
  if args[1]? = some "kani" then
    InvocationType.CargoKani (args.eraseIdx 1)
  else if exe = some "kani" then
    InvocationType.Standalone
  else if exe = some "cargo-kani" then
    InvocationType.CargoKani args
  else
    InvocationType.Standalone

/-- The two process exit codes used by main.rs. -/
inductive DriverExitCode where
  | SUCCESS : DriverExitCode
  | FAILURE : DriverExitCode
deriving DecidableEq, Repr

/-- Modelled from the spec: the util module is not under src/.
`util::error` writes the diagnostic line for a run-fatal error to the
human-facing stderr channel. -/
def util_error_line (msg : String) : String := "error: " ++ msg

/-- What `main` leaves behind: the process exit code and the lines
written to the stderr diagnostic channel, which is separate from the
structured report document. -/
structure MainEffect where
  exit_code : DriverExitCode
  stderr_lines : List String

/-- The error handling tail of `main` (main.rs lines 58-66): a propagated
error yields the failure exit code and one diagnostic line; success
yields the success exit code and no diagnostics. -/
def main_result (run : Except String Unit) : MainEffect :=
  match run with
  | Except.error e => { exit_code := DriverExitCode.FAILURE, stderr_lines := [util_error_line e] }
  | Except.ok _ => { exit_code := DriverExitCode.SUCCESS, stderr_lines := [] }

/-- `main` (main.rs lines 50-67): route the arguments, run the selected
invocation path (`cargokani_main` or `standalone_main`, supplied here as
parameters since their deeper behavior calls external collaborators),
and turn its result into an exit code plus diagnostics. -/
def main_model (cargokani_main : List String → Except String Unit)
    (standalone_main : Unit → Except String Unit) (argv : List String) : MainEffect :=
  main_result (match determine_invocation_type argv with
    | InvocationType.CargoKani args => cargokani_main args
    | InvocationType.Standalone => standalone_main ())

end KaniDriver

namespace KaniMcp

/-- Configuration options for running Kani verification
(kani_wrapper.rs lines 9-33); PathBuf is modelled as String. -/
structure KaniOptions where
  path : String
  harness : Option String
  tests : Bool
  output_format : String
  enable_unstable : List String
  extra_args : List String
  concrete_playback : Bool
  coverage : Bool

/-- One per-harness result line of the text parser
(kani_wrapper.rs lines 72-78). -/
structure HarnessResult where
  name : String
  status : String
  checks_passed : Nat
  checks_failed : Nat
deriving DecidableEq, Repr

/-- One failed check with details (kani_wrapper.rs lines 80-86); a check
with no resolvable line keeps its description and omits the line. -/
structure FailedCheck where
  description : String
  file : String
  line : Option Nat
  function : String
deriving DecidableEq, Repr

/-- Result of a Kani verification run (kani_wrapper.rs lines 51-70);
the verification time is an `Option<f64>` modelled as a rational. -/
structure VerificationResult where
  success : Bool
  summary : String
  harnesses : List HarnessResult
  failed_checks : List FailedCheck
  verification_time : Option Rat
  raw_output : String

/-- Split a character list at every occurrence of a separator; an empty
input yields one empty group, like splitting an empty string. -/
def splitOnChar (sep : Char) (cs : List Char) : List (List Char) :=
  cs.foldr (fun c acc =>
    match acc with
    | [] => [[c]]
    | g :: gs => if c = sep then [] :: g :: gs else (c :: g) :: gs) [[]]

/-- The lines of a text, in order. -/
def linesOf (s : String) : List String := (splitOnChar '\n' s.data).map String.mk

/-- The whitespace separated tokens of one line, in order. -/
def tokensOf (s : String) : List String :=
  ((splitOnChar ' ' s.data).filter (fun g => !g.isEmpty)).map String.mk

/-- A nonempty all-digit string read as a number, anything else read as
absent. -/
def parseNatText (s : String) : Option Nat :=
  if s.data.isEmpty then none
  else if s.data.all Char.isDigit then
    some (s.data.foldl (fun acc c => acc * 10 + (c.toNat - 48)) 0)
  else none

/-- A decimal literal (digits with an optional fractional part) read as
an exact rational, anything else read as absent. -/
def parseDecimalText (s : String) : Option Rat :=
  match splitOnChar '.' s.data with
  | [ip] => (parseNatText (String.mk ip)).map (fun n => (n : Rat))
  | [ip, fp] =>
    match parseNatText (String.mk ip), parseNatText (String.mk fp) with
    | some n, some f => some ((n : Rat) + (f : Rat) / ((10 : Rat) ^ fp.length))
    | _, _ => none
  | _ => none

/-- Modelled from the spec: the parser module of kani-mcp-server is not
under src/.  Section 4.4: line oriented; only a line matching the
result-record grammar (harness name, a SUCCESSFUL or FAILED status
token, a checks-passed count and a checks-failed count) contributes;
every other line is ignored, never a failure. -/
def parse_harness_line (line : String) : Option HarnessResult :=
  match tokensOf line with
  | [nm, st, p, f] =>
    if st = "SUCCESSFUL" ∨ st = "FAILED" then
      match parseNatText p, parseNatText f with
      | some pn, some fn =>
        some { name := nm, status := st, checks_passed := pn, checks_failed := fn }
      | _, _ => none
    else none
  | _ => none

/-- Modelled from the spec: the parser module of kani-mcp-server is not
under src/.  `parse_harnesses(text)` keeps the result records of the
matching lines, in order; text with no recognizable result line yields
the empty sequence, never an error. -/
def parse_harnesses (text : String) : List HarnessResult :=
  (linesOf text).filterMap parse_harness_line

/-- Modelled from the spec: the parser module of kani-mcp-server is not
under src/.  A failed-check record line: description, file, a line
number token (kept only when it resolves to a number) and a function. -/
def parse_failed_check_line (line : String) : Option FailedCheck :=
  match tokensOf line with
  | ["FAILED", d, file, lnTok, fn] =>
    some { description := d, file := file, line := parseNatText lnTok, function := fn }
  | _ => none

/-- Modelled from the spec: the parser module of kani-mcp-server is not
under src/.  `parse_failed_checks(text)` keeps the failed checks in
order of appearance in the source text. -/
def parse_failed_checks (text : String) : List FailedCheck :=
  (linesOf text).filterMap parse_failed_check_line

/-- Modelled from the spec: the parser module of kani-mcp-server is not
under src/.  `parse_verification_time(text)` is the best-effort total
wall time, absent when no line carries one. -/
def parse_time_line (line : String) : Option Rat :=
  match tokensOf line with
  | ["Verification", "Time:", t] => parseDecimalText t
  | _ => none

/-- Modelled from the spec: the first verification-time line of the
text, when there is one. -/
def parse_verification_time (text : String) : Option Rat :=
  (linesOf text).findSome? parse_time_line

/-- `KaniWrapper::parse_output` (kani_wrapper.rs lines 183-211): parse
the captured output into a structured result; every input yields an Ok
result. -/
def parse_output (output : String) (success : Bool) : Except String VerificationResult :=
  let harnesses := parse_harnesses output
  let failed_checks := parse_failed_checks output
  let verification_time := parse_verification_time output
  let total_harnesses := harnesses.length
  let failed_harnesses := (harnesses.filter (fun h => h.status == "FAILED")).length
  let summary :=
    if success then
      "Verification successful! " ++ toString total_harnesses ++ " harness(es) verified."
    else
      "Verification failed. " ++ toString failed_harnesses ++ "/" ++
        toString total_harnesses ++ " harness(es) failed with " ++
        toString failed_checks.length ++ " check failure(s)."
  Except.ok {
    success := success, summary := summary, harnesses := harnesses,
    failed_checks := failed_checks, verification_time := verification_time,
    raw_output := output }

/-- A command the wrapper hands to the operating system: program,
working directory and argument list. -/
structure CmdSpec where
  program : String
  current_dir : String
  args : List String

/-- Captured output of a finished child process. -/
structure ProcOutput where
  stdout : String
  stderr : String
  status_success : Bool

/-- The command built by `KaniWrapper::verify` from the options
(kani_wrapper.rs lines 113-154): the `kani` argument, then the harness
filter, the tests flag, the output format, the unstable features, the
concrete playback flags, the coverage flag and the extra arguments. -/
def build_kani_command (cargo_kani_path : String) (o : KaniOptions) : CmdSpec :=
  let args := ["kani"]
  let args := args ++ (match o.harness with
    | some h => ["--harness", h]
    | none => [])
  let args := args ++ (if o.tests then ["--tests"] else [])
  let args := args ++
    (if o.output_format = "" then [] else ["--output-format=" ++ o.output_format])
  let args := args ++ (o.enable_unstable.map (fun f => ["--enable-unstable", f])).flatten
  let args := args ++
    (if o.concrete_playback then ["-Z", "concrete-playback", "--concrete-playback=print"]
     else [])
  let args := args ++ (if o.coverage then ["--coverage"] else [])
  let args := args ++ o.extra_args
  { program := cargo_kani_path, current_dir := o.path, args := args }

/-- `KaniWrapper::verify` (kani_wrapper.rs lines 106-180).  The
filesystem is the oracle `fs` over paths; `exec cmd = none` models a
spawn failure of `cmd.output()`.  The second component lists the
commands handed to the operating system, so an empty list means no
child process was attempted. -/
def KaniWrapper.verify (cargo_kani_path : String) (fs : String → Bool)
    (exec : CmdSpec → Option ProcOutput) (options : KaniOptions) :
    Except String VerificationResult × List CmdSpec :=
  if fs options.path = false then
    (Except.error ("Path does not exist: \"" ++ options.path ++ "\""), [])
  else
    let cmd := build_kani_command cargo_kani_path options
    match exec cmd with
    | none => (Except.error "Failed to execute cargo-kani. Is it installed?", [cmd])
    | some out =>
      let combined := out.stdout ++ "\n" ++ out.stderr
      (parse_output combined out.status_success, [cmd])

end KaniMcp

namespace KaniDriver

/-- Sample attribute block used to instantiate the theorems below on
concrete inputs. -/
def sampleAttributes : HarnessAttributes :=
  { kind := "Proof", should_panic := false, solver := none, unwind_value := none,
    stubs := [], verified_stubs := false }

/-- Sample harness used to instantiate the theorems below. -/
def sampleHarness : HarnessMetadata :=
  { pretty_name := "alpha", mangled_name := "m_alpha", crate_name := "c",
    original_file := "lib.rs", original_start_line := 1, original_end_line := 2,
    goto_file := none, attributes := sampleAttributes, has_loop_contracts := false,
    is_automatically_generated := false, contract := none }

/-- A second sample harness with a distinct pretty name. -/
def sampleHarnessB : HarnessMetadata :=
  { pretty_name := "beta", mangled_name := "m_beta", crate_name := "c",
    original_file := "lib.rs", original_start_line := 5, original_end_line := 9,
    goto_file := none, attributes := sampleAttributes, has_loop_contracts := false,
    is_automatically_generated := false, contract := none }

/-- Sample successful outcome, 0.125 seconds of runtime. -/
def sampleSuccess : CbmcVerificationResult :=
  { status := VerificationStatus.Success, runtime_nanos := 125000000, cbmc_stats := none }

/-- Sample failing outcome, 2.000 seconds of runtime. -/
def sampleFailure : CbmcVerificationResult :=
  { status := VerificationStatus.Failure, runtime_nanos := 2000000000, cbmc_stats := none }

theorem lookupKey_setKey_self (s : List (String × Json)) (k : String) (v : Json) :
    lookupKey (setKey s k v) k = some v := by
  induction s with
  | nil => simp [setKey, lookupKey]
  | cons p rest ih =>
    obtain ⟨k0, v0⟩ := p
    by_cases h : k0 = k
    · simp [setKey, h, lookupKey]
    · simp [setKey, h, lookupKey, ih]

theorem lookupKey_setKey_ne (s : List (String × Json)) (k k0 : String) (v : Json)
    (h : k0 ≠ k) : lookupKey (setKey s k v) k0 = lookupKey s k0 := by
  induction s with
  | nil => simp [setKey, lookupKey, Ne.symm h]
  | cons p rest ih =>
    obtain ⟨k1, v1⟩ := p
    by_cases h1 : k1 = k
    · subst h1
      simp [setKey, lookupKey, Ne.symm h]
    · by_cases h2 : k1 = k0 <;> simp [setKey, h1, lookupKey, h2, h, ih]

theorem countKey_setKey_ne (s : List (String × Json)) (k k0 : String) (v : Json)
    (h : k0 ≠ k) : countKey (setKey s k v) k0 = countKey s k0 := by
  induction s with
  | nil => simp [setKey, countKey, Ne.symm h]
  | cons p rest ih =>
    obtain ⟨k1, v1⟩ := p
    by_cases h1 : k1 = k
    · subst h1
      simp [setKey, countKey, Ne.symm h]
    · simp [setKey, h1, countKey, ih]

theorem countKey_setKey_self (s : List (String × Json)) (k : String) (v : Json)
    (h : countKey s k = 0) : countKey (setKey s k v) k = 1 := by
  induction s with
  | nil => simp [setKey, countKey]
  | cons p rest ih =>
    obtain ⟨k1, v1⟩ := p
    by_cases h1 : k1 = k
    · subst h1
      simp [countKey] at h
    · simp [countKey, h1] at h
      simp [setKey, h1, countKey, ih h]

theorem arrOf_add_detail (hd : JsonHandler) (sect : String) (r : Json) :
    arrOf (lookupKey (hd.add_harness_detail sect r).sections sect)
      = arrOf (lookupKey hd.sections sect) ++ [r] := by
  simp [JsonHandler.add_harness_detail, lookupKey_setKey_self, arrOf]

theorem lookup_add_detail_ne (hd : JsonHandler) (sect : String) (r : Json) (k0 : String)
    (h : k0 ≠ sect) :
    lookupKey (hd.add_harness_detail sect r).sections k0 = lookupKey hd.sections k0 := by
  simp [JsonHandler.add_harness_detail, lookupKey_setKey_ne _ _ _ _ h]

theorem countKey_add_detail_ne (hd : JsonHandler) (sect : String) (r : Json) (k0 : String)
    (h : k0 ≠ sect) :
    countKey (hd.add_harness_detail sect r).sections k0 = countKey hd.sections k0 := by
  simp [JsonHandler.add_harness_detail, countKey_setKey_ne _ _ _ _ h]

theorem arrOf_foldl_add_detail {α : Type} (f : α → Json) (sect : String) (l : List α)
    (hd : JsonHandler) :
    arrOf (lookupKey (l.foldl (fun d a => d.add_harness_detail sect (f a)) hd).sections sect)
      = arrOf (lookupKey hd.sections sect) ++ l.map f := by
  induction l generalizing hd with
  | nil => simp
  | cons a t ih =>
    simp only [List.foldl_cons, List.map_cons]
    rw [ih, arrOf_add_detail]
    simp

theorem lookup_foldl_add_detail_ne {α : Type} (f : α → Json) (sect : String) (l : List α)
    (hd : JsonHandler) (k0 : String) (h : k0 ≠ sect) :
    lookupKey (l.foldl (fun d a => d.add_harness_detail sect (f a)) hd).sections k0
      = lookupKey hd.sections k0 := by
  induction l generalizing hd with
  | nil => rfl
  | cons a t ih =>
    simp only [List.foldl_cons]
    rw [ih, lookup_add_detail_ne _ _ _ _ h]

theorem countKey_foldl_add_detail_ne {α : Type} (f : α → Json) (sect : String) (l : List α)
    (hd : JsonHandler) (k0 : String) (h : k0 ≠ sect) :
    countKey (l.foldl (fun d a => d.add_harness_detail sect (f a)) hd).sections k0
      = countKey hd.sections k0 := by
  induction l generalizing hd with
  | nil => rfl
  | cons a t ih =>
    simp only [List.foldl_cons]
    rw [ih, countKey_add_detail_ne _ _ _ _ h]

theorem lookup_add_item_self (hd : JsonHandler) (k : String) (v : Json) :
    lookupKey (hd.add_item k v).sections k = some v := by
  simp [JsonHandler.add_item, lookupKey_setKey_self]

theorem lookup_add_item_ne (hd : JsonHandler) (k : String) (v : Json) (k0 : String)
    (h : k0 ≠ k) : lookupKey (hd.add_item k v).sections k0 = lookupKey hd.sections k0 := by
  simp [JsonHandler.add_item, lookupKey_setKey_ne _ _ _ _ h]

theorem countKey_add_item_self (hd : JsonHandler) (k : String) (v : Json)
    (h : countKey hd.sections k = 0) : countKey (hd.add_item k v).sections k = 1 := by
  simp [JsonHandler.add_item, countKey_setKey_self _ _ _ h]

theorem report_eq (hs : List HarnessMetadata) (rs : List HarnessResult)
    (info : Option CbmcInfo) (cov : Bool) (ob : Option Nat) :
    verify_project_report hs rs info cov ob
      = JsonHandler.add_item
          (hs.foldl (fun (d : JsonHandler) h =>
              d.add_harness_detail "cbmc" (cbmcRecordJson info ob rs h))
            (hs.foldl (fun (d : JsonHandler) h =>
                d.add_harness_detail "harnesses" (harnessMetadataJson h))
              ⟨[]⟩))
          "coverage" (Json.obj [("enabled", Json.bool cov)]) := by
  unfold verify_project_report
  cases cov <;> rfl

theorem report_harnesses_section (hs : List HarnessMetadata) (rs : List HarnessResult)
    (info : Option CbmcInfo) (cov : Bool) (ob : Option Nat) :
    arrOf (lookupKey (verify_project_report hs rs info cov ob).sections "harnesses")
      = hs.map harnessMetadataJson := by
  rw [report_eq,
    lookup_add_item_ne _ _ _ _ (show ("harnesses" : String) ≠ "coverage" by decide),
    lookup_foldl_add_detail_ne _ _ _ _ _ (show ("harnesses" : String) ≠ "cbmc" by decide),
    arrOf_foldl_add_detail]
  rfl

theorem report_cbmc_section (hs : List HarnessMetadata) (rs : List HarnessResult)
    (info : Option CbmcInfo) (cov : Bool) (ob : Option Nat) :
    arrOf (lookupKey (verify_project_report hs rs info cov ob).sections "cbmc")
      = hs.map (cbmcRecordJson info ob rs) := by
  rw [report_eq, lookup_add_item_ne _ _ _ _ (show ("cbmc" : String) ≠ "coverage" by decide),
    arrOf_foldl_add_detail,
    lookup_foldl_add_detail_ne _ _ _ _ _ (show ("cbmc" : String) ≠ "harnesses" by decide)]
  rfl

theorem report_coverage_section (hs : List HarnessMetadata) (rs : List HarnessResult)
    (info : Option CbmcInfo) (cov : Bool) (ob : Option Nat) :
    lookupKey (verify_project_report hs rs info cov ob).sections "coverage"
        = some (Json.obj [("enabled", Json.bool cov)]) ∧
      countKey (verify_project_report hs rs info cov ob).sections "coverage" = 1 := by
  constructor
  · rw [report_eq, lookup_add_item_self]
  · rw [report_eq]
    refine countKey_add_item_self _ _ _ ?_
    rw [countKey_foldl_add_detail_ne _ _ _ _ _
        (show ("coverage" : String) ≠ "cbmc" by decide),
      countKey_foldl_add_detail_ne _ _ _ _ _
        (show ("coverage" : String) ≠ "harnesses" by decide)]
    rfl

theorem harnessMetadataJson_pretty_name (h : HarnessMetadata) :
    Json.getField (harnessMetadataJson h) "pretty_name" = some (Json.str h.pretty_name) := rfl

theorem cbmcRecordJson_harness_id (info : Option CbmcInfo) (ob : Option Nat)
    (rs : List HarnessResult) (h : HarnessMetadata) :
    Json.getField (cbmcRecordJson info ob rs h) "harness_id"
      = some (Json.str h.pretty_name) := rfl

theorem cbmcRecordJson_version (info : Option CbmcInfo) (ob : Option Nat)
    (rs : List HarnessResult) (h : HarnessMetadata) :
    (Json.getField (cbmcRecordJson info ob rs h) "cbmc_metadata").bind
        (fun m => Json.getField m "version")
      = some (optStr (info.map (fun i => i.version))) := rfl

theorem cbmcRecordJson_os_info (info : Option CbmcInfo) (ob : Option Nat)
    (rs : List HarnessResult) (h : HarnessMetadata) :
    (Json.getField (cbmcRecordJson info ob rs h) "cbmc_metadata").bind
        (fun m => Json.getField m "os_info")
      = some (optStr (info.map (fun i => i.os_info))) := rfl

theorem cbmcRecordJson_summary_none (info : Option CbmcInfo) (ob : Option Nat)
    (rs : List HarnessResult) (h : HarnessMetadata)
    (hfind : rs.find? (fun r => r.harness.pretty_name == h.pretty_name) = none) :
    Json.getField (cbmcRecordJson info ob rs h) "summary" = some Json.null := by
  simp only [cbmcRecordJson, hfind]
  rfl

theorem cbmcRecordJson_timing_none (info : Option CbmcInfo) (ob : Option Nat)
    (rs : List HarnessResult) (h : HarnessMetadata)
    (hfind : rs.find? (fun r => r.harness.pretty_name == h.pretty_name) = none) :
    Json.getField (cbmcRecordJson info ob rs h) "timing" = some Json.null := by
  simp only [cbmcRecordJson, hfind]
  rfl

theorem cbmcRecordJson_summary_some (info : Option CbmcInfo) (ob : Option Nat)
    (rs : List HarnessResult) (h : HarnessMetadata) (r : HarnessResult)
    (hfind : rs.find? (fun x => x.harness.pretty_name == h.pretty_name) = some r) :
    Json.getField (cbmcRecordJson info ob rs h) "summary"
      = some (Json.obj [
          ("total", Json.num 1),
          ("status", Json.str (match r.result.status with
            | VerificationStatus.Success => "completed"
            | VerificationStatus.Failure => "failed"))]) := by
  simp only [cbmcRecordJson, hfind]
  rfl

theorem cbmcRecordJson_timing_some (info : Option CbmcInfo) (ob : Option Nat)
    (rs : List HarnessResult) (h : HarnessMetadata) (r : HarnessResult)
    (hfind : rs.find? (fun x => x.harness.pretty_name == h.pretty_name) = some r) :
    Json.getField (cbmcRecordJson info ob rs h) "timing"
      = some (Json.obj [
          ("cbmc_runtime", Json.str (format_cbmc_runtime r.result.runtime_nanos))]) := by
  simp only [cbmcRecordJson, hfind]
  rfl

/-- C1: for every input list of N harnesses, `check_all_harnesses`
returns an ordered sequence of exactly N outcomes, one per input harness
and in input order; a spawn failure (`invoke` returning none) is
recorded as a Failure outcome for that harness and removes or reorders
no other outcome. -/
theorem check_all_harnesses_one_outcome_per_harness_in_order
    (invoke : HarnessMetadata → Option CbmcVerificationResult)
    (sink : HarnessResult → Bool) (hs : List HarnessMetadata) (out : List HarnessResult)
    (h : check_all_harnesses invoke sink hs = Except.ok out) :
    out.length = hs.length ∧
    out.map (fun r => r.harness) = hs ∧
    ∀ hr ∈ out, invoke hr.harness = none →
      hr.result.status = VerificationStatus.Failure := by
  induction hs generalizing out with
  | nil =>
    simp [check_all_harnesses] at h
    subst h
    simp
  | cons a t ih =>
    rw [check_all_harnesses] at h
    split at h
    · split at h
      · rename_i tail heq
        cases h
        obtain ⟨len, mapEq, allF⟩ := ih _ heq
        refine ⟨by simp [len], by simp [mapEq], ?_⟩
        intro hr0 hmem hnone
        rcases List.mem_cons.mp hmem with hhead | htail
        · subst hhead
          dsimp only at hnone ⊢
          rw [hnone]
        · exact allF _ htail hnone
      · exact absurd h (by simp)
    · exact absurd h (by simp)

/-- C1 witness: two harnesses whose invocations both fail to spawn still
yield two Failure outcomes in input order. -/
theorem check_all_harnesses_one_outcome_per_harness_in_order_witness :
    [HarnessResult.mk sampleHarness
        (CbmcVerificationResult.mk VerificationStatus.Failure 0 none),
      HarnessResult.mk sampleHarnessB
        (CbmcVerificationResult.mk VerificationStatus.Failure 0 none)].length
        = [sampleHarness, sampleHarnessB].length ∧
      [HarnessResult.mk sampleHarness
          (CbmcVerificationResult.mk VerificationStatus.Failure 0 none),
        HarnessResult.mk sampleHarnessB
          (CbmcVerificationResult.mk VerificationStatus.Failure 0 none)].map
          (fun r => r.harness)
        = [sampleHarness, sampleHarnessB] ∧
      ∀ hr ∈ [HarnessResult.mk sampleHarness
          (CbmcVerificationResult.mk VerificationStatus.Failure 0 none),
        HarnessResult.mk sampleHarnessB
          (CbmcVerificationResult.mk VerificationStatus.Failure 0 none)],
        (none : Option CbmcVerificationResult) = none →
        hr.result.status = VerificationStatus.Failure :=
  check_all_harnesses_one_outcome_per_harness_in_order
    (fun _ => none) (fun _ => true) [sampleHarness, sampleHarnessB] _ rfl

/-- C2: `determine_invocation_type` is pure and total and applies its
four cases in priority order: a second argument equal to "kani" yields
CargoKani with that argument removed; else a first-argument basename
"kani" yields Standalone; else a basename "cargo-kani" yields CargoKani
with the arguments unchanged; else (the empty list included) Standalone. -/
theorem determine_invocation_type_priority (args : List String) :
    (args[1]? = some "kani" →
      determine_invocation_type args = InvocationType.CargoKani (args.eraseIdx 1)) ∧
    (args[1]? ≠ some "kani" → executable_basename args.head? = some "kani" →
      determine_invocation_type args = InvocationType.Standalone) ∧
    (args[1]? ≠ some "kani" → executable_basename args.head? ≠ some "kani" →
      executable_basename args.head? = some "cargo-kani" →
      determine_invocation_type args = InvocationType.CargoKani args) ∧
    (args[1]? ≠ some "kani" → executable_basename args.head? ≠ some "kani" →
      executable_basename args.head? ≠ some "cargo-kani" →
      determine_invocation_type args = InvocationType.Standalone) := by
  refine ⟨?_, ?_, ?_, ?_⟩
  · intro h1
    simp [determine_invocation_type, h1]
  · intro h1 h2
    simp [determine_invocation_type, h1, h2]
  · intro h1 h2 h3
    simp [determine_invocation_type, h1, h2, h3]
  · intro h1 h2 h3
    simp [determine_invocation_type, h1, h2, h3]

/-- C2 witness: the four priority cases at concrete argument lists,
the empty list included. -/
theorem determine_invocation_type_priority_witness :
    determine_invocation_type ["x", "kani", "y"] = InvocationType.CargoKani ["x", "y"] ∧
    determine_invocation_type ["path/to/kani", "foo"] = InvocationType.Standalone ∧
    determine_invocation_type ["cargo-kani", "foo"]
        = InvocationType.CargoKani ["cargo-kani", "foo"] ∧
    determine_invocation_type [] = InvocationType.Standalone :=
  ⟨(determine_invocation_type_priority ["x", "kani", "y"]).1 (by decide),
   (determine_invocation_type_priority ["path/to/kani", "foo"]).2.1 (by decide) (by decide),
   (determine_invocation_type_priority ["cargo-kani", "foo"]).2.2.1
     (by decide) (by decide) (by decide),
   (determine_invocation_type_priority []).2.2.2 (by decide) (by decide) (by decide)⟩

/-- C3: every selected harness gets a metadata record in the "harnesses"
section and a peer record in the "cbmc" section, joined only by the
pretty name; when no outcome matches the pretty name, the metadata
record is still present and the cbmc record carries null summary and
timing instead of being dropped. -/
theorem verify_project_peer_records (hs : List HarnessMetadata) (rs : List HarnessResult)
    (info : Option CbmcInfo) (cov : Bool) (ob : Option Nat) (h : HarnessMetadata)
    (hmem : h ∈ hs) :
    (∃ rec ∈ arrOf (lookupKey (verify_project_report hs rs info cov ob).sections "harnesses"),
        Json.getField rec "pretty_name" = some (Json.str h.pretty_name)) ∧
    ∃ rec ∈ arrOf (lookupKey (verify_project_report hs rs info cov ob).sections "cbmc"),
        Json.getField rec "harness_id" = some (Json.str h.pretty_name) ∧
        (rs.find? (fun r => r.harness.pretty_name == h.pretty_name) = none →
          Json.getField rec "summary" = some Json.null ∧
          Json.getField rec "timing" = some Json.null) := by
  constructor
  · refine ⟨harnessMetadataJson h, ?_, harnessMetadataJson_pretty_name h⟩
    rw [report_harnesses_section]
    exact List.mem_map_of_mem _ hmem
  · refine ⟨cbmcRecordJson info ob rs h, ?_, cbmcRecordJson_harness_id info ob rs h, ?_⟩
    · rw [report_cbmc_section]
      exact List.mem_map_of_mem _ hmem
    · intro hfind
      exact ⟨cbmcRecordJson_summary_none info ob rs h hfind,
        cbmcRecordJson_timing_none info ob rs h hfind⟩

/-- C3 witness: one harness, an empty result list. -/
theorem verify_project_peer_records_witness :
    (∃ rec ∈ arrOf (lookupKey
        (verify_project_report [sampleHarness] [] none false none).sections "harnesses"),
        Json.getField rec "pretty_name" = some (Json.str sampleHarness.pretty_name)) ∧
    ∃ rec ∈ arrOf (lookupKey
        (verify_project_report [sampleHarness] [] none false none).sections "cbmc"),
        Json.getField rec "harness_id" = some (Json.str sampleHarness.pretty_name) ∧
        (([] : List HarnessResult).find?
            (fun r => r.harness.pretty_name == sampleHarness.pretty_name) = none →
          Json.getField rec "summary" = some Json.null ∧
          Json.getField rec "timing" = some Json.null) :=
  verify_project_peer_records [sampleHarness] [] none false none sampleHarness
    (List.mem_singleton.mpr rfl)

/-- C4: the checker environment query result is a single value computed
before the per-harness report loops and reused for every harness record:
each cbmc record carries the rendering of that one shared value; when
the query fails, the version and os_info fields of every record are null, and
the run still completes with the full report (both arrays full length,
coverage item present) instead of aborting. -/
theorem cbmc_info_shared_once_and_degrades_to_null (hs : List HarnessMetadata)
    (rs : List HarnessResult) (cov : Bool) (ob : Option Nat) :
    (∀ info : Option CbmcInfo,
      ∀ rec ∈ arrOf (lookupKey (verify_project_report hs rs info cov ob).sections "cbmc"),
        (Json.getField rec "cbmc_metadata").bind (fun m => Json.getField m "version")
            = some (optStr (info.map (fun i => i.version))) ∧
          (Json.getField rec "cbmc_metadata").bind (fun m => Json.getField m "os_info")
            = some (optStr (info.map (fun i => i.os_info)))) ∧
    (∀ rec ∈ arrOf (lookupKey (verify_project_report hs rs none cov ob).sections "cbmc"),
        (Json.getField rec "cbmc_metadata").bind (fun m => Json.getField m "version")
            = some Json.null ∧
          (Json.getField rec "cbmc_metadata").bind (fun m => Json.getField m "os_info")
            = some Json.null) ∧
    (arrOf (lookupKey (verify_project_report hs rs none cov ob).sections "harnesses")).length
        = hs.length ∧
    (arrOf (lookupKey (verify_project_report hs rs none cov ob).sections "cbmc")).length
        = hs.length ∧
    lookupKey (verify_project_report hs rs none cov ob).sections "coverage"
        = some (Json.obj [("enabled", Json.bool cov)]) := by
  refine ⟨?_, ?_, ?_, ?_, ?_⟩
  · intro info rec hmem
    rw [report_cbmc_section] at hmem
    obtain ⟨h, _, rfl⟩ := List.mem_map.mp hmem
    exact ⟨cbmcRecordJson_version info ob rs h, cbmcRecordJson_os_info info ob rs h⟩
  · intro rec hmem
    rw [report_cbmc_section] at hmem
    obtain ⟨h, _, rfl⟩ := List.mem_map.mp hmem
    exact ⟨cbmcRecordJson_version none ob rs h, cbmcRecordJson_os_info none ob rs h⟩
  · rw [report_harnesses_section]
    simp
  · rw [report_cbmc_section]
    simp
  · exact (report_coverage_section hs rs none cov ob).1

/-- C4 witness: one harness, failed environment query. -/
theorem cbmc_info_shared_once_and_degrades_to_null_witness :
    (Json.getField (cbmcRecordJson none none [] sampleHarness) "cbmc_metadata").bind
        (fun m => Json.getField m "version") = some Json.null ∧
      (Json.getField (cbmcRecordJson none none [] sampleHarness) "cbmc_metadata").bind
        (fun m => Json.getField m "os_info") = some Json.null :=
  (cbmc_info_shared_once_and_degrades_to_null [sampleHarness] [] false none).2.1
    (cbmcRecordJson none none [] sampleHarness)
    (by rw [report_cbmc_section]; exact List.mem_singleton.mpr rfl)

/-- C5: for a harness with a matching outcome, the summary of the cbmc record
is exactly a total of 1 and the status "completed" for Success or
"failed" for Failure; the total is 1 regardless of the outcome. -/
theorem cbmc_summary_total_one_and_status (hs : List HarnessMetadata)
    (rs : List HarnessResult) (info : Option CbmcInfo) (cov : Bool) (ob : Option Nat)
    (h : HarnessMetadata) (r : HarnessResult) (hmem : h ∈ hs)
    (hfind : rs.find? (fun x => x.harness.pretty_name == h.pretty_name) = some r) :
    ∃ rec ∈ arrOf (lookupKey (verify_project_report hs rs info cov ob).sections "cbmc"),
      Json.getField rec "harness_id" = some (Json.str h.pretty_name) ∧
      Json.getField rec "summary" = some (Json.obj [
        ("total", Json.num 1),
        ("status", Json.str (match r.result.status with
          | VerificationStatus.Success => "completed"
          | VerificationStatus.Failure => "failed"))]) := by
  refine ⟨cbmcRecordJson info ob rs h, ?_, cbmcRecordJson_harness_id info ob rs h,
    cbmcRecordJson_summary_some info ob rs h r hfind⟩
  rw [report_cbmc_section]
  exact List.mem_map_of_mem _ hmem

/-- C5 witness: a succeeding and a failing harness. -/
theorem cbmc_summary_total_one_and_status_witness :
    ∃ rec ∈ arrOf (lookupKey (verify_project_report [sampleHarness, sampleHarnessB]
        [HarnessResult.mk sampleHarness sampleSuccess,
         HarnessResult.mk sampleHarnessB sampleFailure] none false none).sections "cbmc"),
      Json.getField rec "harness_id" = some (Json.str sampleHarnessB.pretty_name) ∧
      Json.getField rec "summary" = some (Json.obj [
        ("total", Json.num 1), ("status", Json.str "failed")]) :=
  cbmc_summary_total_one_and_status [sampleHarness, sampleHarnessB]
    [HarnessResult.mk sampleHarness sampleSuccess,
     HarnessResult.mk sampleHarnessB sampleFailure] none false none
    sampleHarnessB (HarnessResult.mk sampleHarnessB sampleFailure)
    (by decide) (by decide)

/-- C6: for a harness with a matching outcome, the timing string of the cbmc record
renders the runtime in seconds with exactly three decimal digits
and a trailing letter s; a 0.125 second runtime yields "0.125s". -/
theorem cbmc_timing_three_decimal_seconds (hs : List HarnessMetadata)
    (rs : List HarnessResult) (info : Option CbmcInfo) (cov : Bool) (ob : Option Nat)
    (h : HarnessMetadata) (r : HarnessResult) (hmem : h ∈ hs)
    (hfind : rs.find? (fun x => x.harness.pretty_name == h.pretty_name) = some r) :
    (∃ rec ∈ arrOf (lookupKey (verify_project_report hs rs info cov ob).sections "cbmc"),
        Json.getField rec "harness_id" = some (Json.str h.pretty_name) ∧
        Json.getField rec "timing" = some (Json.obj
          [("cbmc_runtime", Json.str (format_cbmc_runtime r.result.runtime_nanos))])) ∧
    (∀ n : Nat, ∃ ip : String, ∃ k1 k2 k3 : Nat, k1 < 10 ∧ k2 < 10 ∧ k3 < 10 ∧
        (format_cbmc_runtime n).data
          = ip.data ++ '.' :: digitChar k1 :: digitChar k2 :: digitChar k3 :: ['s']) ∧
    format_cbmc_runtime 125000000 = "0.125s" := by
  refine ⟨⟨cbmcRecordJson info ob rs h, ?_, cbmcRecordJson_harness_id info ob rs h,
      cbmcRecordJson_timing_some info ob rs h r hfind⟩, ?_, by decide⟩
  · rw [report_cbmc_section]
    exact List.mem_map_of_mem _ hmem
  · intro n
    refine ⟨toString (roundHalfEvenDiv n 1000000 / 1000),
      roundHalfEvenDiv n 1000000 % 1000 / 100 % 10,
      roundHalfEvenDiv n 1000000 % 1000 / 10 % 10,
      roundHalfEvenDiv n 1000000 % 1000 % 10,
      Nat.mod_lt _ (by norm_num), Nat.mod_lt _ (by norm_num),
      Nat.mod_lt _ (by norm_num), ?_⟩
    simp [format_cbmc_runtime, pad3]

/-- C6 witness: harness A succeeding in 0.125 seconds yields the timing
string "0.125s". -/
theorem cbmc_timing_three_decimal_seconds_witness :
    (∃ rec ∈ arrOf (lookupKey (verify_project_report [sampleHarness]
        [HarnessResult.mk sampleHarness sampleSuccess] none false none).sections "cbmc"),
        Json.getField rec "harness_id" = some (Json.str sampleHarness.pretty_name) ∧
        Json.getField rec "timing" = some (Json.obj
          [("cbmc_runtime", Json.str (format_cbmc_runtime 125000000))])) ∧
    (∀ n : Nat, ∃ ip : String, ∃ k1 k2 k3 : Nat, k1 < 10 ∧ k2 < 10 ∧ k3 < 10 ∧
        (format_cbmc_runtime n).data
          = ip.data ++ '.' :: digitChar k1 :: digitChar k2 :: digitChar k3 :: ['s']) ∧
    format_cbmc_runtime 125000000 = "0.125s" :=
  cbmc_timing_three_decimal_seconds [sampleHarness]
    [HarnessResult.mk sampleHarness sampleSuccess] none false none
    sampleHarness (HarnessResult.mk sampleHarness sampleSuccess)
    (by decide) (by decide)

/-- C7: every run writes one "coverage" item whose value is the object
with the enabled flag equal to whether coverage was requested, and that
key appears exactly once in the exported document. -/
theorem coverage_item_written_once (hs : List HarnessMetadata) (rs : List HarnessResult)
    (info : Option CbmcInfo) (cov : Bool) (ob : Option Nat) :
    lookupKey (verify_project_report hs rs info cov ob).sections "coverage"
        = some (Json.obj [("enabled", Json.bool cov)]) ∧
      countKey (verify_project_report hs rs info cov ob).sections "coverage" = 1 :=
  report_coverage_section hs rs info cov ob

/-- C8: the process exit code is the success code exactly when the
selected invocation path returns without a propagated error; otherwise
the failure code, with the error text written to the stderr diagnostic
channel, which is separate from the structured report. -/
theorem main_exit_code_and_diagnostics (ck : List String → Except String Unit)
    (sm : Unit → Except String Unit) (argv : List String) :
    ((main_model ck sm argv).exit_code = DriverExitCode.SUCCESS ↔
      (match determine_invocation_type argv with
        | InvocationType.CargoKani a => ck a
        | InvocationType.Standalone => sm ()) = Except.ok ()) ∧
    ∀ e, (match determine_invocation_type argv with
        | InvocationType.CargoKani a => ck a
        | InvocationType.Standalone => sm ()) = Except.error e →
      (main_model ck sm argv).exit_code = DriverExitCode.FAILURE ∧
      (main_model ck sm argv).stderr_lines = [util_error_line e] := by
  have hm : main_model ck sm argv = main_result (match determine_invocation_type argv with
      | InvocationType.CargoKani a => ck a
      | InvocationType.Standalone => sm ()) := rfl
  rcases hr : (match determine_invocation_type argv with
      | InvocationType.CargoKani a => ck a
      | InvocationType.Standalone => sm ()) with e | u
  · rw [hm, hr]
    constructor
    · simp [main_result]
    · intro e0 he0
      simp only [Except.error.injEq] at he0
      subst he0
      simp [main_result]
  · cases u
    rw [hm, hr]
    constructor
    · simp [main_result]
    · intro e0 he0
      exact absurd he0 (by simp)

/-- C8 witness: an erroring cargo-kani path yields the failure exit code
and the diagnostic line on stderr. -/
theorem main_exit_code_and_diagnostics_witness :
    (main_model (fun _ => Except.error "boom") (fun _ => Except.ok ())
        ["cargo-kani"]).exit_code = DriverExitCode.FAILURE ∧
      (main_model (fun _ => Except.error "boom") (fun _ => Except.ok ())
        ["cargo-kani"]).stderr_lines = [util_error_line "boom"] :=
  (main_exit_code_and_diagnostics (fun _ => Except.error "boom")
    (fun _ => Except.ok ()) ["cargo-kani"]).2 "boom" rfl

end KaniDriver

namespace KaniMcp

/-- C9: all parse operations are total and `parse_output` returns Ok for
every output string; on text with no recognizable result line the parsed
harness sequence is empty, never an error. -/
theorem parse_output_total_always_ok (output : String) (success : Bool) :
    (∃ r, parse_output output success = Except.ok r) ∧
    ((∀ l ∈ linesOf output, parse_harness_line l = none) →
      ∃ r, parse_output output success = Except.ok r ∧ r.harnesses = []) := by
  constructor
  · exact ⟨_, rfl⟩
  · intro hall
    refine ⟨_, rfl, ?_⟩
    show parse_harnesses output = []
    exact List.filterMap_eq_nil_iff.mpr hall

/-- C9 witness: log text with no result-record line parses to Ok with an
empty harness sequence. -/
theorem parse_output_total_always_ok_witness :
    ∃ r, parse_output "no results here\njust a log line" false = Except.ok r ∧
      r.harnesses = [] :=
  (parse_output_total_always_ok "no results here\njust a log line" false).2 (by decide)

/-- C10: when the configured project path does not exist, `verify`
returns an error naming that path and hands no command to the operating
system, so no child process is created. -/
theorem verify_missing_path_errors_without_spawn (cargo_kani_path : String)
    (fs : String → Bool) (exec : CmdSpec → Option ProcOutput) (options : KaniOptions)
    (h : fs options.path = false) :
    KaniWrapper.verify cargo_kani_path fs exec options
      = (Except.error ("Path does not exist: \"" ++ options.path ++ "\""), []) := by
  simp [KaniWrapper.verify, h]

/-- C10 witness: a missing path on a concrete option set. -/
theorem verify_missing_path_errors_without_spawn_witness :
    KaniWrapper.verify "cargo-kani" (fun _ => false) (fun _ => none)
        { path := "/missing", harness := none, tests := false, output_format := "terse",
          enable_unstable := [], extra_args := [], concrete_playback := false,
          coverage := false }
      = (Except.error "Path does not exist: \"/missing\"", []) :=
  verify_missing_path_errors_without_spawn "cargo-kani" (fun _ => false) (fun _ => none)
    { path := "/missing", harness := none, tests := false, output_format := "terse",
      enable_unstable := [], extra_args := [], concrete_playback := false,
      coverage := false } rfl

end KaniMcp
